import Mathlib

/-!
Shallow embedding of the Ethica backend glue layer.

The repository has three JavaScript source files:
  * an OCR test script (`testOCR`) that reads a local image, calls a
    text-detection API and logs either the first annotation's description
    or a "no text detected" sentinel, catching every failure and logging it;
  * an express server exposing `POST /extract-ingredients`, which validates
    the `text` field of the JSON body, calls a chat-completion API with a
    fixed two-message prompt, and maps success/failure to HTTP responses;
  * an express server exposing `GET /test-cors`, which replies with a fixed
    JSON message.

External calls are modelled as oracle functions passed to the handlers; the
handlers additionally return the list of chat requests they issued, so that
"invoked exactly once" is a statement about that list.
-/

namespace Ethica

/-- A JSON value as far as the `text` field is concerned.  JavaScript
truthiness distinguishes `null`, `false`, `0` and `""` (all falsy) from
everything else. -/
inductive JsonValue where
  | jnull : JsonValue
  | jbool : Bool → JsonValue
  | jnum : Int → JsonValue
  | jstr : String → JsonValue
deriving DecidableEq, Repr

/-- JavaScript truthiness of a JSON value: `null`, `false`, `0` and the
empty string are falsy, everything else is truthy (mirrors `if (!text)`). -/
def jsTruthy : JsonValue → Bool
  | .jnull => false
  | .jbool b => b
  | .jnum n => n != 0
  | .jstr s => s != ""

/-- JavaScript string conversion as performed by a template literal
interpolating the value. -/
def jsToString : JsonValue → String
  | .jnull => "null"
  | .jbool true => "true"
  | .jbool false => "false"
  | .jnum n => toString n
  | .jstr s => s

/-- The request body of `POST /extract-ingredients`: a JSON object whose
`text` field may be absent (`none`) or hold any JSON value. -/
structure ReqBody where
  text : Option JsonValue
deriving DecidableEq, Repr

/-- One message of a chat-completion request or response. -/
structure ChatMessage where
  role : String
  content : String
deriving DecidableEq, Repr

/-- A chat-completion request as built by the handler:
`openai.chat.completions.create({model, messages, temperature})`. -/
structure ChatRequest where
  model : String
  messages : List ChatMessage
  temperature : Nat
deriving DecidableEq, Repr

/-- One choice of a chat-completion response. -/
structure Choice where
  message : ChatMessage
deriving DecidableEq, Repr

/-- A chat-completion response: a list of choices (the code reads
`response.choices[0].message.content`). -/
structure ChatResponse where
  choices : List Choice
deriving DecidableEq, Repr

/-- Outcome of the awaited external chat-completion call: either a
structured response, or a raised error carrying its internal details. -/
inductive AdapterResult where
  | success : ChatResponse → AdapterResult
  | failure : String → AdapterResult
deriving DecidableEq, Repr

/-- The JSON bodies this backend ever serializes. -/
inductive RespBody where
  | jsonIngredients : String → RespBody
  | jsonError : String → RespBody
  | jsonMessage : String → RespBody
deriving DecidableEq, Repr

/-- An HTTP response: status code and JSON body. -/
structure HttpResponse where
  status : Nat
  body : RespBody
deriving DecidableEq, Repr

/-- `res.json(b)` in express: status 200 with JSON body `b`. -/
def resJson (b : RespBody) : HttpResponse := ⟨200, b⟩

/-- `res.status(code).json(b)` in express. -/
def statusJson (code : Nat) (b : RespBody) : HttpResponse := ⟨code, b⟩

/-- The user-message prompt: the template literal
`Extract a clean list of ingredients from this text: ${text}` with the
caller's text interpolated at the end. -/
def promptFor (text : String) : String :=
  "Extract a clean list of ingredients from this text: " ++ text

/-- The chat request built by the `/extract-ingredients` handler: fixed
model `gpt-5-mini`, a system message and a user message embedding the
caller's text, temperature 0. -/
def mkChatRequest (text : String) : ChatRequest where
  model := "gpt-5-mini"
  messages :=
    [⟨"system", "You are an assistant that extracts ingredients from text."⟩,
     ⟨"user", promptFor text⟩]
  temperature := 0

/-- The `POST /extract-ingredients` handler.  `create` is the external
chat-completion call.  Returns the single HTTP response together with the
list of chat requests issued.  Paths, mirroring the source:
  * `text` absent or falsy: `res.status(400).json({error: "No text provided"})`,
    no external call;
  * external call throws: caught, `res.status(500).json({error: "Failed to
    extract ingredients"})`;
  * response has no choice: `response.choices[0]` is `undefined`, so reading
    `.message` throws inside the `try`, caught, same 500 response;
  * otherwise: `res.json({ingredients})` with the first choice's message
    content trimmed. -/
def extractIngredientsHandler (create : ChatRequest → AdapterResult)
    (body : ReqBody) : HttpResponse × List ChatRequest :=
  match body.text with
  | none => (statusJson 400 (.jsonError "No text provided"), [])
  | some v =>
    if jsTruthy v then
      let req := mkChatRequest (jsToString v)
      match create req with
      | .failure _ => (statusJson 500 (.jsonError "Failed to extract ingredients"), [req])
      | .success resp =>
        match resp.choices with
        | [] => (statusJson 500 (.jsonError "Failed to extract ingredients"), [req])
        | c :: _ => (resJson (.jsonIngredients c.message.content.trim), [req])
    else (statusJson 400 (.jsonError "No text provided"), [])

/-- The `GET /test-cors` handler: a constant JSON reply (note the leading
check-mark emoji present in the source string). -/
def testCorsHandler : HttpResponse :=
  resJson (.jsonMessage "✅ CORS is working properly")

/-- The image bytes read from the local file in the OCR script. -/
structure ImageBuffer where
  content : List Nat
deriving DecidableEq, Repr

/-- One text annotation of the OCR response (the code reads
`detections[0].description`). -/
structure TextAnn where
  description : String
deriving DecidableEq, Repr

/-- The structured OCR response: the `textAnnotations` field may be missing
or `undefined` (`none`) or hold a possibly empty list. -/
structure OCRResult where
  textAnnotations : Option (List TextAnn)
deriving DecidableEq, Repr

/-- The outcome the OCR script distinguishes: the sentinel "no text
detected" (not an error) or the first annotation's description. -/
inductive OCROutcome where
  | noText : OCROutcome
  | text : String → OCROutcome
deriving DecidableEq, Repr

/-- The branch `if (!detections || detections.length === 0)` of the OCR
script: a missing `textAnnotations` field or an empty list yields the
sentinel, otherwise the first annotation's description is taken. -/
def ocrOutcome (result : OCRResult) : OCROutcome :=
  match result.textAnnotations with
  | none => .noText
  | some [] => .noText
  | some (a :: _) => .text a.description

/-- What the OCR script writes to the console. -/
inductive ConsoleLine where
  | log : String → ConsoleLine
  | logWith : String → String → ConsoleLine
  | errorWith : String → String → ConsoleLine
deriving DecidableEq, Repr

/-- The `try` block of `testOCR`: read the fixed local image path, call
text detection, and log the outcome.  Any failure of the file read or of
the external call propagates as an `Except.error`. -/
def testOCRBody (readFile : String → Except String ImageBuffer)
    (textDetection : ImageBuffer → Except String OCRResult) :
    Except String (List ConsoleLine) := do
  let imageBuffer ← readFile "./test-image.jpg"
  let result ← textDetection imageBuffer
  match ocrOutcome result with
  | .noText => pure [.log "No text detected!"]
  | .text s => pure [.logWith "Text detected:\n" s]

/-- The whole `testOCR` function: the `try` block wrapped in the `catch`
clause, which only logs the error to the console.  The return type carries
console lines only: the script has no reply channel, and the catch clause
turns every failure into a normal return, never rethrowing. -/
def testOCR (readFile : String → Except String ImageBuffer)
    (textDetection : ImageBuffer → Except String OCRResult) :
    List ConsoleLine :=
  match testOCRBody readFile textDetection with
  | .ok lines => lines
  | .error e => [.errorWith "Error with Google Vision API:" e]

/-- A sample successful adapter for witnesses: one choice whose content has
surrounding whitespace. -/
def okAdapter : ChatRequest → AdapterResult :=
  fun _ => .success ⟨[⟨⟨"assistant", " Flour\nEgg\nSalt "⟩⟩]⟩

/-- A sample failing adapter for witnesses. -/
def failAdapter : ChatRequest → AdapterResult :=
  fun _ => .failure "network error: ECONNREFUSED"

end Ethica

namespace Ethica

/-- C1: For every POST to `/extract-ingredients` whose body has a non-empty
`text` field, the chat-completion adapter is invoked exactly once with a
prompt containing that text verbatim, and the 200 response's `ingredients`
field equals the adapter's first choice's message content trimmed. -/
theorem extract_ingredients_success (create : ChatRequest → AdapterResult)
    (body : ReqBody) (t : String) (resp : ChatResponse) (c : Choice)
    (rest : List Choice)
    (htext : body.text = some (.jstr t)) (hne : t ≠ "")
    (hcall : create (mkChatRequest t) = .success resp)
    (hchoices : resp.choices = c :: rest) :
    extractIngredientsHandler create body
      = (⟨200, .jsonIngredients c.message.content.trim⟩, [mkChatRequest t])
    ∧ ∃ m, m ∈ (mkChatRequest t).messages ∧ ∃ pre post, m.content = pre ++ t ++ post := by
  have htr : jsTruthy (.jstr t) = true := by
    simp [jsTruthy, bne_iff_ne, hne]
  constructor
  · simp only [extractIngredientsHandler, htext, htr, if_pos, jsToString, hcall, hchoices,
      resJson]
  · exact ⟨⟨"user", promptFor t⟩, by simp [mkChatRequest],
      "Extract a clean list of ingredients from this text: ", "", by simp [promptFor]⟩

theorem extract_ingredients_success_witness :
    extractIngredientsHandler okAdapter ⟨some (.jstr "2 cups flour, 1 egg, a pinch of salt")⟩
      = (⟨200, .jsonIngredients " Flour\nEgg\nSalt ".trim⟩,
         [mkChatRequest "2 cups flour, 1 egg, a pinch of salt"])
    ∧ ∃ m, m ∈ (mkChatRequest "2 cups flour, 1 egg, a pinch of salt").messages
        ∧ ∃ pre post, m.content = pre ++ "2 cups flour, 1 egg, a pinch of salt" ++ post :=
  extract_ingredients_success okAdapter _ _ ⟨[⟨⟨"assistant", " Flour\nEgg\nSalt "⟩⟩]⟩ _ _
    rfl (by decide) rfl rfl

/-- C2: For every POST to `/extract-ingredients` whose `text` field is
missing or the empty string, the adapter is never invoked and the response
is HTTP 400 with body `error: "No text provided"`. -/
theorem extract_ingredients_no_text (create : ChatRequest → AdapterResult)
    (body : ReqBody)
    (h : body.text = none ∨ body.text = some (.jstr "")) :
    extractIngredientsHandler create body
      = (⟨400, .jsonError "No text provided"⟩, []) := by
  have hf : jsTruthy (.jstr "") = false := by decide
  rcases h with h | h <;>
    simp [extractIngredientsHandler, h, hf, statusJson]

theorem extract_ingredients_no_text_witness :
    extractIngredientsHandler failAdapter ⟨none⟩
      = (⟨400, .jsonError "No text provided"⟩, []) :=
  extract_ingredients_no_text failAdapter ⟨none⟩ (Or.inl rfl)

/-- C3: For every failure the external chat-completion call raises, the
error is caught and the response is HTTP 500 with the generic body
`error: "Failed to extract ingredients"`; the handler still returns one
response (it does not crash or leave the request unanswered), and the
response is a constant independent of the error `e`, so no internal
exception details reach the caller. -/
theorem extract_ingredients_failure (create : ChatRequest → AdapterResult)
    (body : ReqBody) (v : JsonValue) (e : String)
    (htext : body.text = some v) (htr : jsTruthy v = true)
    (hfail : create (mkChatRequest (jsToString v)) = .failure e) :
    extractIngredientsHandler create body
      = (⟨500, .jsonError "Failed to extract ingredients"⟩,
         [mkChatRequest (jsToString v)]) := by
  simp [extractIngredientsHandler, htext, htr, hfail, statusJson]

theorem extract_ingredients_failure_witness :
    extractIngredientsHandler failAdapter ⟨some (.jstr "milk and honey")⟩
      = (⟨500, .jsonError "Failed to extract ingredients"⟩,
         [mkChatRequest (jsToString (.jstr "milk and honey"))]) :=
  extract_ingredients_failure failAdapter ⟨some (.jstr "milk and honey")⟩
    (.jstr "milk and honey") "network error: ECONNREFUSED" rfl (by decide) rfl

/-- C4: For every request accepted by the `/extract-ingredients` handler,
exactly one HTTP response is emitted (the handler is a total function into
a single `HttpResponse`), on exactly one of the three paths: 400 validation
failure with no adapter call, 200 success after one adapter call, or 500
adapter failure after one adapter call; the three paths are pairwise
exclusive. -/
theorem extract_ingredients_one_response (create : ChatRequest → AdapterResult)
    (body : ReqBody) :
    ( ((extractIngredientsHandler create body).1.status = 400
        ∧ (extractIngredientsHandler create body).1.body = .jsonError "No text provided"
        ∧ (extractIngredientsHandler create body).2 = [])
      ∨ ((extractIngredientsHandler create body).1.status = 200
        ∧ (extractIngredientsHandler create body).2.length = 1)
      ∨ ((extractIngredientsHandler create body).1.status = 500
        ∧ (extractIngredientsHandler create body).1.body
            = .jsonError "Failed to extract ingredients"
        ∧ (extractIngredientsHandler create body).2.length = 1) )
    ∧ ¬((extractIngredientsHandler create body).1.status = 400
        ∧ (extractIngredientsHandler create body).1.status = 200)
    ∧ ¬((extractIngredientsHandler create body).1.status = 400
        ∧ (extractIngredientsHandler create body).1.status = 500)
    ∧ ¬((extractIngredientsHandler create body).1.status = 200
        ∧ (extractIngredientsHandler create body).1.status = 500) := by
  refine ⟨?_, by omega, by omega, by omega⟩
  rcases hb : body.text with _ | v
  · exact Or.inl (by simp [extractIngredientsHandler, hb, statusJson])
  · rcases htr : jsTruthy v with _ | _
    · exact Or.inl (by simp [extractIngredientsHandler, hb, htr, statusJson])
    · rcases hc : create (mkChatRequest (jsToString v)) with resp | e
      · rcases hch : resp.choices with _ | ⟨c, rest⟩
        · exact Or.inr (Or.inr
            (by simp [extractIngredientsHandler, hb, htr, hc, hch, statusJson]))
        · exact Or.inr (Or.inl
            (by simp [extractIngredientsHandler, hb, htr, hc, hch, resJson]))
      · exact Or.inr (Or.inr
          (by simp [extractIngredientsHandler, hb, htr, hc, statusJson]))

/-- C5: For every structured OCR response, the script's outcome is the
first annotation's description when at least one text annotation exists,
and the sentinel "no text detected" (a non-error outcome, distinct from
every text outcome) when no annotation exists, whether the list is empty
or the field is missing. -/
theorem ocrOutcome_first_or_sentinel :
    (∀ (a : TextAnn) (rest : List TextAnn),
        ocrOutcome ⟨some (a :: rest)⟩ = .text a.description)
    ∧ ocrOutcome ⟨some []⟩ = .noText
    ∧ ocrOutcome ⟨none⟩ = .noText
    ∧ ∀ s : String, OCROutcome.noText ≠ OCROutcome.text s :=
  ⟨fun _ _ => rfl, rfl, rfl, fun _ h => OCROutcome.noConfusion h⟩

/-- C6: Every failure raised inside the OCR script's `try` block — the
local image-file read or the external text-detection call — is caught; the
script's whole output is a single console-error line carrying the error,
nothing is rethrown (`testOCR` returns normally, with plain console lines),
and no reply is produced for any caller (the output type has no response
channel). -/
theorem testOCR_failure_logged_only
    (readFile : String → Except String ImageBuffer)
    (textDetection : ImageBuffer → Except String OCRResult) (e : String)
    (h : testOCRBody readFile textDetection = .error e) :
    testOCR readFile textDetection
      = [.errorWith "Error with Google Vision API:" e] := by
  simp [testOCR, h]

theorem testOCR_failure_logged_only_witness :
    testOCR (fun _ => .error "ENOENT: no such file or directory")
        (fun _ => .ok ⟨none⟩)
      = [.errorWith "Error with Google Vision API:"
          "ENOENT: no such file or directory"] :=
  testOCR_failure_logged_only _ _ "ENOENT: no such file or directory" rfl

/-- C7: For every non-empty text input, the chat request is built with
exactly two messages — a system-role instruction to extract ingredients
and a user-role message embedding the caller's text verbatim — with
temperature fixed at 0 and the single configured model identifier
`gpt-5-mini`. -/
theorem mkChatRequest_shape (t : String) (_h : t ≠ "") :
    (mkChatRequest t).model = "gpt-5-mini"
    ∧ (mkChatRequest t).temperature = 0
    ∧ (mkChatRequest t).messages.length = 2
    ∧ (mkChatRequest t).messages
        = [⟨"system", "You are an assistant that extracts ingredients from text."⟩,
           ⟨"user", promptFor t⟩]
    ∧ ∃ pre post, promptFor t = pre ++ t ++ post :=
  ⟨rfl, rfl, rfl, rfl,
    "Extract a clean list of ingredients from this text: ", "", by simp [promptFor]⟩

theorem mkChatRequest_shape_witness :
    (mkChatRequest "salt").model = "gpt-5-mini"
    ∧ (mkChatRequest "salt").temperature = 0
    ∧ (mkChatRequest "salt").messages.length = 2
    ∧ (mkChatRequest "salt").messages
        = [⟨"system", "You are an assistant that extracts ingredients from text."⟩,
           ⟨"user", promptFor "salt"⟩]
    ∧ ∃ pre post, promptFor "salt" = pre ++ "salt" ++ post :=
  mkChatRequest_shape "salt" (by decide)

/-- C8 counterexample: the `/test-cors` response body is not
`message: "CORS is working properly"` — the source string carries a leading
check-mark emoji. -/
theorem testCors_not_plain_message :
    testCorsHandler ≠ ⟨200, .jsonMessage "CORS is working properly"⟩ := by
  decide

/-- C8 (amended): every GET request to `/test-cors` receives HTTP 200 with
body `message: "✅ CORS is working properly"`. -/
theorem testCors_response :
    testCorsHandler.status = 200
    ∧ testCorsHandler.body = .jsonMessage "✅ CORS is working properly" :=
  ⟨rfl, rfl⟩

/-- C9: The validation gate rejects with HTTP 400, without invoking the
adapter, every request whose `text` field is a falsy JSON value — and the
falsy values are exactly `null`, `false`, `0` and the empty string (so not
only absent or empty text is rejected). -/
theorem extract_ingredients_falsy (create : ChatRequest → AdapterResult)
    (body : ReqBody) (v : JsonValue) (htext : body.text = some v) :
    (jsTruthy v = false
      ↔ (v = .jnull ∨ v = .jbool false ∨ v = .jnum 0 ∨ v = .jstr ""))
    ∧ (jsTruthy v = false →
        extractIngredientsHandler create body
          = (⟨400, .jsonError "No text provided"⟩, [])) := by
  constructor
  · rcases v with _ | b | n | s
    · simp [jsTruthy]
    · rcases b with _ | _ <;> simp [jsTruthy]
    · simp [jsTruthy]
    · simp [jsTruthy]
  · intro hf
    simp [extractIngredientsHandler, htext, hf, statusJson]

theorem extract_ingredients_falsy_witness :
    (jsTruthy (.jnum 0) = false
      ↔ ((JsonValue.jnum 0) = .jnull ∨ (JsonValue.jnum 0) = .jbool false
          ∨ (JsonValue.jnum 0) = .jnum 0 ∨ (JsonValue.jnum 0) = .jstr ""))
    ∧ (jsTruthy (.jnum 0) = false →
        extractIngredientsHandler failAdapter ⟨some (.jnum 0)⟩
          = (⟨400, .jsonError "No text provided"⟩, [])) :=
  extract_ingredients_falsy failAdapter ⟨some (.jnum 0)⟩ (.jnum 0) rfl

/-- C10: The OCR script's empty-result check treats a missing
`textAnnotations` field exactly like an empty annotation list — both take
the "no text detected" branch — and the first-annotation access happens
only when the field holds a nonempty list, so it can never dereference a
missing list. -/
theorem ocr_missing_like_empty :
    ocrOutcome ⟨none⟩ = ocrOutcome ⟨some []⟩
    ∧ ∀ r : OCRResult,
        ocrOutcome r = .noText
        ∨ ∃ (a : TextAnn) (rest : List TextAnn),
            r.textAnnotations = some (a :: rest)
            ∧ ocrOutcome r = .text a.description := by
  refine ⟨rfl, fun r => ?_⟩
  rcases r with ⟨_ | ⟨_ | ⟨a, rest⟩⟩⟩
  · exact Or.inl rfl
  · exact Or.inl rfl
  · exact Or.inr ⟨a, rest, rfl, rfl⟩

end Ethica
